import Mathlib

/-!
A verification development for the Promptsmith chart-optimizer repository.

The Python sources are embedded shallowly:

* Python `float` values (scores) are modelled as exact rationals `ℚ`;
  Python's `round(x, n)` (ties to even) is modelled by `round2` / `round1`.
* Python `dict`s are modelled as insertion-ordered association lists
  (`List (String × α)`, or the `Json.obj` constructor for JSON values),
  with `getKey` / `setKey` / `hasKey` mirroring `d[k]` / `d[k] = v` / `k in d`.
* The external `hashlib.md5` digest is an opaque pure function on strings;
  every cache definition takes it as an explicit argument `md5hex`.
* External LLM calls (`chat_completion`) may return arbitrary text, so the
  provider's response is an explicit `String` (or parsed `Option Json`)
  argument of the embedded function.
* `random.uniform` / `random.randint` draws are modelled by an explicit
  stream `rng : ℕ → ℚ` (the i-th draw of the enclosing comprehension);
  no claim depends on the drawn values.
* File persistence (`_save_cache`) and timestamps are I/O and are outside
  the model; they do not affect the in-memory values the claims speak about.
-/

namespace Promptsmith

/-! Python string methods are modelled by structurally recursive functions
on the character list of a `String` (Lean's own position-based `String`
functions do not reduce inside the kernel). -/

/-- Python `s.lower()` (the queries and issue tags at hand are ASCII). -/
def py_lower (s : String) : String := ⟨s.data.map Char.toLower⟩

/-- Python `s.strip()`: remove leading and trailing whitespace. -/
def py_strip (s : String) : String :=
  ⟨((s.data.dropWhile Char.isWhitespace).reverse.dropWhile Char.isWhitespace).reverse⟩

/-- Python `s[:n]`. -/
def py_take (s : String) (n : ℕ) : String := ⟨s.data.take n⟩

/-- Python `s.startswith(pat)`. -/
def py_startswith (s pat : String) : Bool := pat.data.isPrefixOf s.data

/-- Python's `pat in s` substring test: some suffix of `s` starts with `pat`. -/
def strContains (s pat : String) : Bool :=
  s.data.tails.any (fun t => pat.data.isPrefixOf t)

/-- Python dict read `d.get(k)` on an insertion-ordered association list. -/
def getKey {α : Type} : List (String × α) → String → Option α
  | [], _ => none
  | (k', v') :: rest, k => if k' = k then some v' else getKey rest k

/-- Python dict write `d[k] = v`: replace in place if the key exists,
otherwise append (insertion order preserved). -/
def setKey {α : Type} : List (String × α) → String → α → List (String × α)
  | [], k, v => [(k, v)]
  | (k', v') :: rest, k, v =>
    if k' = k then (k, v) :: rest else (k', v') :: setKey rest k v

/-- Python `k in d`. -/
def hasKey {α : Type} (d : List (String × α)) (k : String) : Bool :=
  (getKey d k).isSome

/-- JSON values (the shape of Vega-Lite chart specifications and of the
entries stored in the learning cache). Objects are insertion-ordered
association lists, like Python dicts. -/
inductive Json : Type where
  | str (s : String)
  | num (q : ℚ)
  | bool (b : Bool)
  | null
  | arr (xs : List Json)
  | obj (kvs : List (String × Json))
deriving Repr

/-- `spec.get(k)` on a JSON object (`none` when the value is not an object). -/
def Json.get : Json → String → Option Json
  | .obj kvs, k => getKey kvs k
  | _, _ => none

/-- `spec[k] = v` on a JSON object (identity on non-objects). -/
def Json.set : Json → String → Json → Json
  | .obj kvs, k, v => .obj (setKey kvs k v)
  | j, _, _ => j

/-- `k in spec` on a JSON object. -/
def Json.hasField : Json → String → Bool
  | .obj kvs, k => hasKey kvs k
  | _, _ => false

/-- Round a rational to the nearest integer, ties to even — the rounding
used by Python's builtin `round` (here floats are modelled exactly). -/
def rhe (x : ℚ) : ℤ :=
  if Int.fract x < 1 / 2 then ⌊x⌋
  else if 1 / 2 < Int.fract x then ⌊x⌋ + 1
  else if ⌊x⌋ % 2 = 0 then ⌊x⌋ else ⌊x⌋ + 1

/-- Python `round(x, 2)`. -/
def round2 (x : ℚ) : ℚ := (rhe (x * 100) : ℚ) / 100

/-- Python `round(x, 1)`. -/
def round1 (x : ℚ) : ℚ := (rhe (x * 10) : ℚ) / 10

/-! ## `src/agents/scorer.py` — `ScoringAgent` -/

/-- `ScoringAgent.heuristic_weight`. -/
def heuristic_weight : ℚ := 0.4

/-- `ScoringAgent.llm_weight`. -/
def llm_weight : ℚ := 0.6

/-- `ScoringAgent.continue_threshold`. -/
def continue_threshold : ℚ := 9.5

/-- `ScoringAgent.max_iterations` (fixed at construction). -/
def scorer_max_iterations : ℕ := 5

/-- `ScoringAgent.calculate_final_score`: weighted blend of the heuristic
and LLM scores, rounded to two decimals. -/
def calculate_final_score (heuristic_score llm_score : ℚ) : ℚ :=
  round2 (heuristic_score * heuristic_weight + llm_score * llm_weight)

/-- The critical-issue tags hard-coded in `ScoringAgent.should_continue`. -/
def critical_issues : List String :=
  ["invalid_input", "invalid_chart_spec", "missing_data"]

/-- Rendering of the interpolated score in the continue-branch reason string
(`f"Score {final_score} below threshold ..."`). Python formats the float in
decimal; only the fact that some text is interpolated matters here, so the
rational's own rendering is used. -/
def py_float_str (q : ℚ) : String := toString q

/-- `ScoringAgent.should_continue(final_score, iteration, heuristic_issues)`:
the pair (continue?, reason) that drives the orchestrator loop. -/
def should_continue (final_score : ℚ) (iteration : ℕ)
    (heuristic_issues : List String) : Bool × String :=
  if iteration ≥ scorer_max_iterations then
    (false, "Maximum iterations (5) reached")
  else if final_score ≥ continue_threshold ∧ iteration > 1 then
    (false, "Target score (9.5) achieved")
  else if critical_issues.any (fun issue => heuristic_issues.contains issue) then
    (false, "Critical issues detected requiring clarification")
  else
    (true, "Score " ++ py_float_str final_score ++
      " below threshold 9.5, continuing iteration")

/-! ## `src/agents/rewriter.py` — `PromptRewriterAgent.should_continue_optimization` -/

/-- `PromptRewriterAgent.should_continue_optimization(final_score, iteration,
max_iterations)`. -/
def should_continue_optimization (final_score : ℚ) (iteration : ℕ)
    (max_iterations : ℕ) : Bool × String :=
  if iteration ≥ max_iterations then
    (false, "Reached maximum iterations (" ++ toString max_iterations ++ ")")
  else if final_score ≥ 9.5 ∧ iteration > 1 then
    (false, "Achieved excellent score (≥9.5)")
  else if final_score ≥ 8.0 ∧ iteration ≥ 2 then
    (false, "Achieved good score (≥8.0) after multiple iterations")
  else if final_score < 3.0 ∧ iteration ≥ 2 then
    (false, "Score too low after multiple iterations")
  else
    (true, "Continuing optimization")

/-! ## `src/main.py` — the loop's stop decision

In `PromptsmithOrchestrator.run_optimization` the early-exit check
`if not state.get("should_continue", True): break` runs immediately after
`self.scorer.run(state)`, which sets `state["should_continue"]` from
`ScoringAgent.should_continue`.  The rewriter also writes a
`should_continue` value into the state, but the scorer overwrites it before
the next check, so the loop's decision is exactly the scorer's. -/

/-- What the orchestrator observes of one loop iteration (the heuristic
evaluator's verdict and the combined score computed by the scorer). -/
structure IterEval where
  chart_valid : Bool
  should_clarify : Bool
  heuristic_issues : List String
  final_score : ℚ
deriving Repr

/-- Whether the loop leaves iteration `i` early: in `run_optimization`, a
clarification request returns from the function, and otherwise (only when
`chart_valid` lets the scoring block run) a `should_continue` of `False`
breaks the loop. -/
def loop_exits_early (e : IterEval) (i : ℕ) : Bool :=
  e.should_clarify || (e.chart_valid && !(should_continue e.final_score i e.heuristic_issues).1)

/-- The iteration at which `run_optimization`'s `for iteration in
range(1, max_iterations + 1)` loop stops, given the per-iteration
evaluations `evals` (indexed by iteration number). -/
def loop_exit_iteration (evals : ℕ → IterEval) (max_iterations : ℕ) : ℕ :=
  go max_iterations 1
where
  go : ℕ → ℕ → ℕ
    | 0, i => i - 1
    | fuel + 1, i => if loop_exits_early (evals i) i then i else go fuel (i + 1)

/-! ## `src/learning_cache.py` — `LearningCache`

The md5 digest of `hashlib` is external C code; it enters every definition
as an explicit pure argument `md5hex : String → String`. -/

/-- `LearningCache._hash_query(query)`:
`hashlib.md5(query.lower().encode()).hexdigest()`. -/
def hash_query (md5hex : String → String) (query : String) : String :=
  md5hex (py_lower query)

/-- One element of `issue_patterns[issue]["solutions"]`. -/
structure Solution where
  prompt : String
  chart_spec : Json
  score : ℚ
deriving Repr

/-- `issue_patterns[issue]`. -/
structure IssuePattern where
  count : ℕ
  solutions : List Solution
  avg_score : ℚ
deriving Repr

/-- `query_patterns[query_hash]`. -/
structure QueryPattern where
  query : String
  chart_type : Json
  effective_prompt : String
  score : ℚ
deriving Repr

/-- `LearningCache.patterns` (the `feedback_patterns` category is declared in
the source but never written or read, and is omitted). -/
structure Patterns where
  query_patterns : List (String × QueryPattern)
  issue_patterns : List (String × IssuePattern)
  prompt_patterns : List (String × String)
  chart_patterns : List (String × Json)
deriving Repr

/-- The empty pattern store (a fresh cache). -/
def emptyPatterns : Patterns := ⟨[], [], [], []⟩

/-- The `run_data` dict assembled by `LearningCache.add_run` (the
`datetime.now()` timestamp is I/O and is omitted). -/
structure RunData where
  user_query : String
  prompt : String
  chart_spec : Json
  heuristic_score : ℚ
  llm_score : ℚ
  heuristic_issues : List String
  llm_feedback : String
  final_score : ℚ
deriving Repr

/-- The issue-learning step of `LearningCache._learn_from_run`: for one
`issue` tag, bump the counter and, when `final_score >= 7.0`, append the
run as a solution and prune to the 20 highest-scoring solutions
(`sorted(..., key=score, reverse=True)[:20]`, a stable descending sort). -/
def learn_issue (run : RunData) (ips : List (String × IssuePattern))
    (issue : String) : List (String × IssuePattern) :=
  let pat := (getKey ips issue).getD ⟨0, [], 0⟩
  let pat := { pat with count := pat.count + 1 }
  let pat :=
    if run.final_score ≥ 7.0 then
      let sols := pat.solutions ++ [⟨run.prompt, run.chart_spec, run.final_score⟩]
      { pat with
        solutions := (sols.mergeSort (fun a b => b.score ≤ a.score)).take 20 }
    else pat
  setKey ips issue pat

/-- `LearningCache._learn_from_run(run_data)`: learn query, issue, prompt and
chart patterns from one completed run.  Query/prompt/chart patterns are
(over)written only when `final_score >= 8.0`. -/
def learn_from_run (md5hex : String → String) (p : Patterns)
    (run : RunData) : Patterns :=
  let query_hash := hash_query md5hex run.user_query
  let qp :=
    if run.final_score ≥ 8.0 then
      setKey p.query_patterns query_hash
        ⟨run.user_query, (run.chart_spec.get "mark").getD (Json.str ""),
          run.prompt, run.final_score⟩
    else p.query_patterns
  let ip := run.heuristic_issues.foldl (learn_issue run) p.issue_patterns
  let pp :=
    if run.final_score ≥ 8.0 then setKey p.prompt_patterns query_hash run.prompt
    else p.prompt_patterns
  let cp :=
    if run.final_score ≥ 8.0 then setKey p.chart_patterns query_hash run.chart_spec
    else p.chart_patterns
  ⟨qp, ip, pp, cp⟩

/-- The in-memory state of a `LearningCache` (`self.cache["runs"]` plus the
learned patterns; file persistence is I/O and outside the model). -/
structure CacheState where
  runs : List RunData
  patterns : Patterns
deriving Repr

/-- A freshly constructed cache with no prior file. -/
def emptyCache : CacheState := ⟨[], emptyPatterns⟩

/-- `LearningCache.add_run(...)`: append the run and learn from it. -/
def add_run (md5hex : String → String) (c : CacheState) (run : RunData) :
    CacheState :=
  ⟨c.runs ++ [run], learn_from_run md5hex c.patterns run⟩

/-- `LearningCache.suggest_prompt(user_query)`: look up the learned prompt
pattern under the query's fingerprint. -/
def suggest_prompt (md5hex : String → String) (p : Patterns)
    (user_query : String) : Option String :=
  getKey p.prompt_patterns (hash_query md5hex user_query)

/-- `LearningCache.suggest_chart_spec(user_query)`: look up the learned chart
pattern under the query's fingerprint. -/
def suggest_chart_spec (md5hex : String → String) (p : Patterns)
    (user_query : String) : Option Json :=
  getKey p.chart_patterns (hash_query md5hex user_query)

/-- Python's `max(xs, key=lambda x: x["score"])` on a non-empty list: keeps
the first element attaining the maximal score. -/
def max_by_score (s : Solution) (rest : List Solution) : Solution :=
  rest.foldl (fun best x => if x.score > best.score then x else best) s

/-- `LearningCache.suggest_improvements(heuristic_issues, final_score=0.0)`:
one suggestion string per known issue that has stored solutions (skipped
entirely when `final_score >= 8.0`).  Issues are strings by construction
here, so the source's `isinstance(issue, str)` guard is vacuous. -/
def suggest_improvements (p : Patterns) (heuristic_issues : List String)
    (final_score : ℚ) : List String :=
  if final_score ≥ 8.0 then []
  else
    heuristic_issues.foldl
      (fun suggestions issue =>
        match getKey p.issue_patterns issue with
        | some pat =>
          match pat.solutions with
          | [] => suggestions
          | s :: rest =>
            let best := max_by_score s rest
            suggestions ++
              ["Based on previous runs, " ++ issue ++ " was resolved with: " ++
                py_take best.prompt 100 ++ "..."]
        | none => suggestions)
      []

/-! ## `src/agents/rewriter.py` — the rewrite paths -/

/-- `PromptRewriterAgent._apply_cached_suggestion(prompt, suggestion)`. -/
def apply_cached_suggestion (prompt suggestion : String) : String :=
  let p := prompt
  let p := if strContains (py_lower suggestion) "specific" then
      p ++ "\n\nPlease be very specific about chart type, data handling, and visual elements."
    else p
  let p := if strContains (py_lower suggestion) "clear" then
      p ++ "\n\nEnsure the chart is clear and easy to interpret with proper labels and titles."
    else p
  let p := if strContains (py_lower suggestion) "data" then
      p ++ "\n\nInclude proper data transformations and aggregations as needed."
    else p
  p

/-- `PromptRewriterAgent._template_rewrite(prompt, heuristic_issues,
llm_feedback, final_score)`: the deterministic fallback rewrite used when
the LLM is unavailable. -/
def template_rewrite (prompt : String) (heuristic_issues : List String)
    (_llm_feedback : String) (_final_score : ℚ) : String × String :=
  let improvements :=
    (if heuristic_issues.any (fun i => strContains (py_lower i) "axis") then
      ["Include clear axis labels and titles"] else []) ++
    (if heuristic_issues.any (fun i => strContains (py_lower i) "color") then
      ["Use meaningful colors and ensure good contrast"] else []) ++
    (if heuristic_issues.any (fun i => strContains (py_lower i) "data") then
      ["Specify data handling and transformations"] else []) ++
    (if heuristic_issues.any (fun i => strContains (py_lower i) "type") then
      ["Be specific about chart type and mark selection"] else [])
  if improvements ≠ [] then
    (prompt ++ "\n\nAdditional requirements:\n" ++
        String.intercalate "\n" (improvements.map (fun imp => "- " ++ imp)),
      "Template rewrite addressing " ++ toString heuristic_issues.length ++ " issues")
  else
    (prompt ++ "\n\nPlease ensure the chart is clear, well-labeled, and effectively communicates the data insights.",
      "General improvement template applied")

/-- `PromptRewriterAgent.rewrite_prompt(prompt, heuristic_issues,
llm_feedback, final_score)`.  The global cache's patterns and the external
provider's reply `llm_response` are explicit arguments.  (The
`rewrite_reason` assigned on the cached-suggestion branch is overwritten by
both following branches in the source and is not reproduced.) -/
def rewrite_prompt (cache_patterns : Patterns) (prompt : String)
    (heuristic_issues : List String) (llm_feedback : String)
    (final_score : ℚ) (llm_response : String) : String × String :=
  let cache_suggestions :=
    if final_score < 8.0 then
      suggest_improvements cache_patterns heuristic_issues 0.0
    else []
  let prompt_for_llm :=
    match cache_suggestions with
    | cached_suggestion :: _ => apply_cached_suggestion prompt cached_suggestion
    | [] => prompt
  if py_startswith llm_response "[MOCK" || py_startswith llm_response "[LLM ERROR" then
    template_rewrite prompt_for_llm heuristic_issues llm_feedback final_score
  else
    let main_issues :=
      if heuristic_issues ≠ [] then String.intercalate ", " heuristic_issues
      else "none"
    let feedback_summary :=
      py_take llm_feedback 80 ++ (if llm_feedback.length > 80 then "..." else "")
    (py_strip llm_response,
      "LLM rewrite: addressed issues [" ++ main_issues ++ "] and feedback: \x27" ++
        feedback_summary ++ "\x27")

/-! ## `src/agents/chart_builder.py` — `ChartBuilderAgent` -/

/-- Python dict deletion `del d[k]`. -/
def delKey {α : Type} : List (String × α) → String → List (String × α)
  | [], _ => []
  | (k', v') :: rest, k => if k' = k then rest else (k', v') :: delKey rest k

/-- `del spec[k]` on a JSON object. -/
def Json.del : Json → String → Json
  | .obj kvs, k => .obj (delKey kvs k)
  | j, _ => j

/-- Python's `str.title()`: upper-case each letter that does not follow a
letter, lower-case the rest. -/
def py_title (s : String) : String :=
  String.mk
    (s.data.foldl
      (fun (acc : List Char × Bool) c =>
        (acc.1 ++ [if acc.2 then c.toLower else c.toUpper], c.isAlpha))
      ([], false)).1

/-- The per-axis title clean-up loop at the end of
`ChartBuilderAgent._enhance_chart_spec` (one `axis in ["x", "y"]` step,
applied to `encoding[axis]` when present). -/
def enhance_axis (e : Json) : Json :=
  if e.hasField "title" then
    let e :=
      if e.hasField "axis" && (((e.get "axis").getD .null).hasField "title") then
        e.set "title" ((((e.get "axis").getD .null).get "title").getD .null)
      else e
    if e.hasField "axis" && e.hasField "title" then
      let ax := ((e.get "axis").getD .null).set "title" ((e.get "title").getD .null)
      (e.set "axis" ax).del "title"
    else e
  else e

/-- `ChartBuilderAgent._enhance_chart_spec(chart_spec, user_query)` (the
`user_query` parameter is unused in the source body too). -/
def enhance_chart_spec (chart_spec : Json) (_user_query : String) : Json :=
  let cs :=
    if chart_spec.hasField "$schema" then chart_spec
    else chart_spec.set "$schema" (.str "https://vega.github.io/schema/vega-lite/v5.json")
  let cs := cs.set "autosize" (.obj [("type", .str "fit"), ("contains", .str "padding")])
  let cs := cs.set "width" (.str "container")
  let cs := cs.set "height" (.str "container")
  let encoding := (cs.get "encoding").getD (.obj [])
  let encoding :=
    if encoding.hasField "color" then
      let color := (encoding.get "color").getD .null
      let color :=
        if !color.hasField "scale" then
          color.set "scale" (.obj [("scheme", .str "tableau10")])
        else
          color.set "scale" (((color.get "scale").getD .null).set "scheme" (.str "tableau10"))
      encoding.set "color" color
    else
      encoding.set "color"
        (.obj [("field", .str "Region"), ("type", .str "nominal"),
          ("scale", .obj [("scheme", .str "tableau10")])])
  let cs :=
    if cs.hasField "mark" then
      match (cs.get "mark").getD .null with
      | .obj kvs =>
        cs.set "mark"
          (((Json.obj kvs).set "cornerRadiusEnd" (.num 6)).set "tooltip" (.bool true))
      | .str s =>
        if s = "bar" then
          cs.set "mark"
            (.obj [("type", .str "bar"), ("cornerRadiusEnd", .num 6), ("tooltip", .bool true)])
        else cs
      | _ => cs
    else cs
  let cs :=
    cs.set "selection"
      (.obj [("highlight",
        .obj [("type", .str "single"), ("on", .str "mouseover"), ("empty", .str "none")])])
  let encoding :=
    encoding.set "tooltip"
      (.arr [.obj [("field", .str "Region"), ("type", .str "nominal"), ("title", .str "Region")],
        .obj [("field", .str "Sales"), ("type", .str "quantitative"), ("title", .str "Sales (USD)")]])
  let encoding :=
    if encoding.hasField "x" then
      encoding.set "x" (enhance_axis ((encoding.get "x").getD .null))
    else encoding
  let encoding :=
    if encoding.hasField "y" then
      encoding.set "y" (enhance_axis ((encoding.get "y").getD .null))
    else encoding
  let cs := cs.set "encoding" encoding
  cs.set "config"
    (.obj [("bar", .obj [("cornerRadiusEnd", .num 6)]),
      ("axis", .obj [("labelFontSize", .num 13), ("titleFontSize", .num 16)]),
      ("title", .obj [("fontSize", .num 20), ("fontWeight", .str "bold")])])

/-- `ChartBuilderAgent._detect_chart_type(chart_spec)`. -/
def detect_chart_type (chart_spec : Json) : String :=
  let mark :=
    match (chart_spec.get "mark").getD (.str "") with
    | .obj kvs =>
      match getKey kvs "type" with
      | some (.str t) => t
      | _ => ""
    | .str s => s
    | _ => ""
  let m := py_lower mark
  if m = "bar" then "bar"
  else if m = "line" then "line"
  else if m = "point" then "scatter"
  else if m = "area" then "area"
  else if m = "circle" then "scatter"
  else if m = "square" then "scatter"
  else if m = "tick" then "tick"
  else if m = "rect" then "heatmap"
  else if m = "rule" then "rule"
  else if m = "text" then "text"
  else "unknown"

/-- The month abbreviations used by `_generate_time_series_data`. -/
def months : List String :=
  ["Jan", "Feb", "Mar", "Apr", "May", "Jun", "Jul", "Aug", "Sep", "Oct", "Nov", "Dec"]

/-- `ChartBuilderAgent._generate_time_series_data(metric, chart_type)`. -/
def generate_time_series_data (rng : ℕ → ℚ) (metric : String)
    (_chart_type : String) : List Json × Json × String :=
  let ms := months.take 6
  if strContains metric "churn" then
    (ms.enum.map (fun p =>
        .obj [("month", .str p.2), ("churn_rate", .num (round1 (rng p.1)))]),
      .obj [("x", .obj [("field", .str "month"), ("type", .str "ordinal"), ("title", .str "Month")]),
        ("y", .obj [("field", .str "churn_rate"), ("type", .str "quantitative"), ("title", .str "Churn Rate (%)")])],
      "Customer Churn Rate Over Time")
  else if strContains metric "satisfaction" then
    (ms.enum.map (fun p =>
        .obj [("month", .str p.2), ("satisfaction_score", .num (round1 (rng p.1)))]),
      .obj [("x", .obj [("field", .str "month"), ("type", .str "ordinal"), ("title", .str "Month")]),
        ("y", .obj [("field", .str "satisfaction_score"), ("type", .str "quantitative"), ("title", .str "Satisfaction Score")])],
      "Customer Satisfaction Over Time")
  else
    (ms.enum.map (fun p =>
        .obj [("month", .str p.2), ("value", .num (rng p.1))]),
      .obj [("x", .obj [("field", .str "month"), ("type", .str "ordinal"), ("title", .str "Month")]),
        ("y", .obj [("field", .str "value"), ("type", .str "quantitative"), ("title", .str (py_title metric))])],
      py_title metric ++ " Over Time")

/-- `ChartBuilderAgent._generate_regional_data(metric, chart_type)`. -/
def generate_regional_data (rng : ℕ → ℚ) (metric : String)
    (_chart_type : String) : List Json × Json × String :=
  let regions : List String := ["North", "South", "East", "West", "Central"]
  if strContains metric "churn" then
    (regions.enum.map (fun p =>
        .obj [("region", .str p.2), ("churn_rate", .num (round1 (rng p.1)))]),
      .obj [("x", .obj [("field", .str "region"), ("type", .str "nominal"), ("title", .str "Region")]),
        ("y", .obj [("field", .str "churn_rate"), ("type", .str "quantitative"), ("title", .str "Churn Rate (%)")])],
      "Customer Churn Rate by Region")
  else if strContains metric "satisfaction" then
    (regions.enum.map (fun p =>
        .obj [("region", .str p.2), ("satisfaction_score", .num (round1 (rng p.1)))]),
      .obj [("x", .obj [("field", .str "region"), ("type", .str "nominal"), ("title", .str "Region")]),
        ("y", .obj [("field", .str "satisfaction_score"), ("type", .str "quantitative"), ("title", .str "Satisfaction Score")])],
      "Customer Satisfaction by Region")
  else
    (regions.enum.map (fun p =>
        .obj [("region", .str p.2), ("value", .num (rng p.1))]),
      .obj [("x", .obj [("field", .str "region"), ("type", .str "nominal"), ("title", .str "Region")]),
        ("y", .obj [("field", .str "value"), ("type", .str "quantitative"), ("title", .str (py_title metric))])],
      py_title metric ++ " by Region")

/-- `ChartBuilderAgent._generate_department_data(metric, chart_type)`. -/
def generate_department_data (rng : ℕ → ℚ) (metric : String)
    (_chart_type : String) : List Json × Json × String :=
  let departments : List String :=
    ["Sales", "Marketing", "Engineering", "Customer Support", "Finance", "HR"]
  if strContains metric "churn" then
    (departments.enum.map (fun p =>
        .obj [("department", .str p.2), ("churn_rate", .num (round1 (rng p.1)))]),
      .obj [("x", .obj [("field", .str "department"), ("type", .str "nominal"), ("title", .str "Department")]),
        ("y", .obj [("field", .str "churn_rate"), ("type", .str "quantitative"), ("title", .str "Churn Rate (%)")])],
      "Employee Churn Rate by Department")
  else if strContains metric "satisfaction" then
    (departments.enum.map (fun p =>
        .obj [("department", .str p.2), ("satisfaction_score", .num (round1 (rng p.1)))]),
      .obj [("x", .obj [("field", .str "department"), ("type", .str "nominal"), ("title", .str "Department")]),
        ("y", .obj [("field", .str "satisfaction_score"), ("type", .str "quantitative"), ("title", .str "Satisfaction Score")])],
      "Employee Satisfaction by Department")
  else
    (departments.enum.map (fun p =>
        .obj [("department", .str p.2), ("value", .num (rng p.1))]),
      .obj [("x", .obj [("field", .str "department"), ("type", .str "nominal"), ("title", .str "Department")]),
        ("y", .obj [("field", .str "value"), ("type", .str "quantitative"), ("title", .str (py_title metric))])],
      py_title metric ++ " by Department")

/-- `ChartBuilderAgent._generate_product_data(metric, chart_type)`. -/
def generate_product_data (rng : ℕ → ℚ) (metric : String)
    (_chart_type : String) : List Json × Json × String :=
  let products : List String :=
    ["Product A", "Product B", "Product C", "Product D", "Product E"]
  if strContains metric "churn" then
    (products.enum.map (fun p =>
        .obj [("product", .str p.2), ("churn_rate", .num (round1 (rng p.1)))]),
      .obj [("x", .obj [("field", .str "product"), ("type", .str "nominal"), ("title", .str "Product")]),
        ("y", .obj [("field", .str "churn_rate"), ("type", .str "quantitative"), ("title", .str "Churn Rate (%)")])],
      "Customer Churn Rate by Product")
  else if strContains metric "satisfaction" then
    (products.enum.map (fun p =>
        .obj [("product", .str p.2), ("satisfaction_score", .num (round1 (rng p.1)))]),
      .obj [("x", .obj [("field", .str "product"), ("type", .str "nominal"), ("title", .str "Product")]),
        ("y", .obj [("field", .str "satisfaction_score"), ("type", .str "quantitative"), ("title", .str "Satisfaction Score")])],
      "Customer Satisfaction by Product")
  else
    (products.enum.map (fun p =>
        .obj [("product", .str p.2), ("value", .num (rng p.1))]),
      .obj [("x", .obj [("field", .str "product"), ("type", .str "nominal"), ("title", .str "Product")]),
        ("y", .obj [("field", .str "value"), ("type", .str "quantitative"), ("title", .str (py_title metric))])],
      py_title metric ++ " by Product")

/-- `ChartBuilderAgent._generate_generic_data(metric, dimension, chart_type)`. -/
def generate_generic_data (rng : ℕ → ℚ) (metric dimension : String)
    (_chart_type : String) : List Json × Json × String :=
  let categories : List String :=
    ["Category A", "Category B", "Category C", "Category D", "Category E"]
  if strContains metric "churn" then
    (categories.enum.map (fun p =>
        .obj [("category", .str p.2), ("churn_rate", .num (round1 (rng p.1)))]),
      .obj [("x", .obj [("field", .str "category"), ("type", .str "nominal"), ("title", .str (py_title dimension))]),
        ("y", .obj [("field", .str "churn_rate"), ("type", .str "quantitative"), ("title", .str "Churn Rate (%)")])],
      "Churn Rate by " ++ py_title dimension)
  else if strContains metric "satisfaction" then
    (categories.enum.map (fun p =>
        .obj [("category", .str p.2), ("satisfaction_score", .num (round1 (rng p.1)))]),
      .obj [("x", .obj [("field", .str "category"), ("type", .str "nominal"), ("title", .str (py_title dimension))]),
        ("y", .obj [("field", .str "satisfaction_score"), ("type", .str "quantitative"), ("title", .str "Satisfaction Score")])],
      "Satisfaction Score by " ++ py_title dimension)
  else
    (categories.enum.map (fun p =>
        .obj [("category", .str p.2), ("value", .num (rng p.1))]),
      .obj [("x", .obj [("field", .str "category"), ("type", .str "nominal"), ("title", .str (py_title dimension))]),
        ("y", .obj [("field", .str "value"), ("type", .str "quantitative"), ("title", .str (py_title metric))])],
      py_title metric ++ " by " ++ py_title dimension)

/-- `ChartBuilderAgent._generate_dynamic_data(query, chart_type)`:
keyword-match a metric and a dimension, then dispatch to the matching
data generator. -/
def generate_dynamic_data (rng : ℕ → ℚ) (query chart_type : String) :
    List Json × Json × String :=
  let metrics : List String :=
    ["revenue", "sales", "profit", "customers", "orders", "conversion_rate",
      "satisfaction_score", "churn_rate"]
  let dimensions : List String :=
    ["region", "department", "product", "month", "quarter", "year", "category", "team"]
  let detected_metric := (metrics.find? (fun m => strContains query m)).getD "revenue"
  let detected_dimension := (dimensions.find? (fun d => strContains query d)).getD "region"
  if detected_dimension = "month" || strContains query "time" || strContains query "trend" then
    generate_time_series_data rng detected_metric chart_type
  else if detected_dimension = "region" then
    generate_regional_data rng detected_metric chart_type
  else if detected_dimension = "department" then
    generate_department_data rng detected_metric chart_type
  else if detected_dimension = "product" then
    generate_product_data rng detected_metric chart_type
  else
    generate_generic_data rng detected_metric detected_dimension chart_type

/-- `ChartBuilderAgent._generate_dynamic_chart_spec(prompt, user_query)`:
the deterministic template fallback used when LLM generation fails. -/
def generate_dynamic_chart_spec (rng : ℕ → ℚ) (prompt user_query : String) : Json :=
  let query_lower := py_lower (if user_query ≠ "" then user_query else prompt)
  let chart_type :=
    if strContains query_lower "bar" || strContains query_lower "column" then "bar"
    else if strContains query_lower "line" || strContains query_lower "trend" ||
        strContains query_lower "over time" || strContains query_lower "time series" then "line"
    else if strContains query_lower "scatter" || strContains query_lower "point" ||
        strContains query_lower "correlation" then "point"
    else if strContains query_lower "pie" || strContains query_lower "donut" then "arc"
    else if strContains query_lower "area" || strContains query_lower "stacked" then "area"
    else "bar"
  let dft := generate_dynamic_data rng query_lower chart_type
  .obj [("$schema", .str "https://vega.github.io/schema/vega-lite/v5.json"),
    ("description", .str ("Dynamic chart for: " ++ (if user_query ≠ "" then user_query else prompt))),
    ("data", .obj [("values", .arr dft.1)]),
    ("mark", .str chart_type),
    ("encoding", dft.2.1),
    ("title", .obj [("text", .str dft.2.2), ("fontSize", .num 16)]),
    ("width", .num 600),
    ("height", .num 400)]

/-- `ChartBuilderAgent.validate_chart_spec(chart_spec)`: all four required
top-level fields are present. -/
def validate_chart_spec (chart_spec : Json) : Bool :=
  (["$schema", "data", "mark", "encoding"] : List String).all
    (fun field => chart_spec.hasField field)

/-- The cache branch at the top of `ChartBuilderAgent.build_chart`: a cached
chart spec is used only when the fingerprint hits `chart_patterns`, the
fingerprint also hits `query_patterns`, and the stored original query text
equals the input after `lower()`/`strip()` normalization; the spec is then
enhanced before being returned. -/
def build_chart_cache (md5hex : String → String) (p : Patterns)
    (user_query : String) : Option Json :=
  if user_query ≠ "" then
    match suggest_chart_spec md5hex p user_query with
    | some cached_chart_spec =>
      match getKey p.query_patterns (hash_query md5hex user_query) with
      | some entry =>
        if py_strip (py_lower user_query) = py_strip (py_lower entry.query) then
          some (enhance_chart_spec cached_chart_spec user_query)
        else none
      | none => none
    | none => none
  else none

/-- The dictionary `ChartBuilderAgent.build_chart` returns. -/
structure BuildResult where
  chart_spec : Json
  from_cache : Bool
  cache_hit : Option String
  generation_method : String
  chart_type : String
  llm_fallback : Bool
deriving Repr

/-- `ChartBuilderAgent.build_chart(prompt, user_query)`.  The external
provider's reply, after `_extract_json_from_response` and `json.loads`, is
the argument `llm_chart`: `none` models a provider error or unparseable
output, which the source catches and answers with the deterministic
template fallback (never re-raising to the caller — the embedding is a
total function). -/
def build_chart (md5hex : String → String) (p : Patterns)
    (llm_chart : Option Json) (rng : ℕ → ℚ) (prompt user_query : String) :
    BuildResult :=
  match build_chart_cache md5hex p user_query with
  | some enhanced_spec =>
    ⟨enhanced_spec, true, some "exact_match", "cache",
      detect_chart_type enhanced_spec, false⟩
  | none =>
    match llm_chart with
    | some parsed =>
      let chart_spec :=
        enhance_chart_spec parsed (if user_query ≠ "" then user_query else prompt)
      ⟨chart_spec, false, none, "llm", detect_chart_type chart_spec, false⟩
    | none =>
      let dynamic_spec := generate_dynamic_chart_spec rng prompt user_query
      ⟨dynamic_spec, false, none, "dynamic_template",
        detect_chart_type dynamic_spec, true⟩

/-! ## Spec-side definition (for the fingerprint claim)

The specification describes the fingerprint as a hash of a *case- and
whitespace-folded* query.  `spec_normalize` renders that normalization
(lower-case, whitespace runs collapsed to single spaces, ends trimmed) so
the claim can be stated; it is written from the spec, not from the code. -/

/-- Split a character list at whitespace characters (fragments between
consecutive separators are empty). -/
def split_ws : List Char → List (List Char)
  | [] => [[]]
  | c :: rest =>
    match split_ws rest with
    | [] => [[]]
    | h :: t => if c.isWhitespace then [] :: h :: t else (c :: h) :: t

/-- Case/whitespace folding as described by the spec's Query Fingerprint. -/
def spec_normalize (s : String) : String :=
  String.intercalate " "
    (((split_ws (py_lower s).data).map String.mk).filter (fun w => w ≠ ""))

/-! ## Concrete inputs used by counterexamples and witnesses -/

/-- A first recorded run: query `"q"`, prompt `"p1"`, combined score 9.0. -/
def runA : RunData := ⟨"q", "p1", Json.obj [("mark", Json.str "bar")], 9, 9, [], "", 9⟩

/-- A later run for the same query with the lower combined score 8.5. -/
def runB : RunData := ⟨"q", "p2", Json.obj [("mark", Json.str "bar")], 9, 8, [], "", 8.5⟩

/-- A digest function with a collision on every input (md5 restricted to an
adversarial input set; any function of this type is a legal instantiation
of the opaque `md5hex` parameter). -/
def hconst : String → String := fun _ => "k"

/-- A successful run for the query `"a"`, recorded under `hconst`. -/
def runC6 : RunData := ⟨"a", "pA", Json.obj [], 9, 9, [], "", 9⟩

/-- A pattern store whose fingerprint `"k"` holds a chart pattern and a
query pattern whose stored text `"Hello "` normalizes to `"hello"`. -/
def patsC6 : Patterns :=
  ⟨[("k", ⟨"Hello ", Json.str "bar", "p", 9⟩)], [], [],
    [("k", Json.obj [("mark", Json.str "bar")])]⟩

/-! ## Shared lemmas -/

/-- Reading back the key just written returns the written value. -/
theorem getKey_setKey {α : Type} (m : List (String × α)) (k : String) (v : α) :
    getKey (setKey m k v) k = some v := by
  induction m with
  | nil => simp [setKey, getKey]
  | cons hd tl ih =>
    obtain ⟨k', v'⟩ := hd
    by_cases h : k' = k
    · simp [setKey, getKey, h]
    · simp [setKey, getKey, h, ih]

/-- Round-half-to-even is monotone. -/
theorem rhe_le_of_le {x y : ℚ} (h : x ≤ y) : rhe x ≤ rhe y := by
  have hfl : ⌊x⌋ ≤ ⌊y⌋ := Int.floor_le_floor h
  rcases eq_or_lt_of_le hfl with heq | hlt
  · have hfr : Int.fract x ≤ Int.fract y := by
      simp only [Int.fract]
      rw [heq]
      linarith
    unfold rhe
    rw [← heq]
    split_ifs <;> first | omega | (exfalso; linarith)
  · have h1 : rhe x ≤ ⌊x⌋ + 1 := by unfold rhe; split_ifs <;> omega
    have h2 : ⌊y⌋ ≤ rhe y := by unfold rhe; split_ifs <;> omega
    omega

/-- Rounding to two decimal places is monotone. -/
theorem round2_le_of_le {x y : ℚ} (h : x ≤ y) : round2 x ≤ round2 y := by
  unfold round2
  have h1 : rhe (x * 100) ≤ rhe (y * 100) := rhe_le_of_le (by linarith)
  gcongr

/-- C8. Score Combiner: `calculate_final_score r q = round(r*0.4 + q*0.6, 2)`
(the weights are 0.4/0.6 and sum to 1), it maps (0,0) to 0 and (10,10) to
10, and it is monotone non-decreasing in each argument. -/
theorem C8_score_combiner :
    (∀ r q : ℚ, calculate_final_score r q = round2 (r * 0.4 + q * 0.6)) ∧
    heuristic_weight + llm_weight = 1 ∧
    calculate_final_score 0 0 = 0 ∧
    calculate_final_score 10 10 = 10 ∧
    (∀ r r' q : ℚ, r ≤ r' → calculate_final_score r q ≤ calculate_final_score r' q) ∧
    (∀ r q q' : ℚ, q ≤ q' → calculate_final_score r q ≤ calculate_final_score r q') := by
  refine ⟨fun r q => rfl, by norm_num [heuristic_weight, llm_weight], ?_, ?_, ?_, ?_⟩
  · norm_num [calculate_final_score, round2, rhe, Int.fract, heuristic_weight, llm_weight]
  · norm_num [calculate_final_score, round2, rhe, Int.fract, heuristic_weight, llm_weight]
  · intro r r' q h
    apply round2_le_of_le
    have : r * heuristic_weight ≤ r' * heuristic_weight := by
      apply mul_le_mul_of_nonneg_right h
      norm_num [heuristic_weight]
    linarith
  · intro r q q' h
    apply round2_le_of_le
    have : q * llm_weight ≤ q' * llm_weight := by
      apply mul_le_mul_of_nonneg_right h
      norm_num [llm_weight]
    linarith

/-- C8 witness: the combiner's corner values and monotonicity at concrete
scores, via `C8_score_combiner`. -/
theorem C8_score_combiner_witness :
    calculate_final_score 0 0 = 0 ∧
    calculate_final_score 3 2 ≤ calculate_final_score 5 2 ∧
    calculate_final_score 3 2 ≤ calculate_final_score 3 4 :=
  ⟨C8_score_combiner.2.2.1,
    C8_score_combiner.2.2.2.2.1 3 5 2 (by norm_num),
    C8_score_combiner.2.2.2.2.2 3 2 4 (by norm_num)⟩

/-- C3. Termination Policy rule 3 gate: at iteration 1 the loop policy never
stops with the target-score (STOP_SUCCESS) outcome, whatever the combined
score; with no critical issue it continues; the rewriter's policy likewise
continues at iteration 1 for any `max_iterations > 1`; and concretely
(9.8, iter 1) continues while (9.8, iter 2) stops with the target reason. -/
theorem C3_first_iteration_gate :
    (∀ (final_score : ℚ) (issues : List String),
      should_continue final_score 1 issues ≠ (false, "Target score (9.5) achieved")) ∧
    (∀ (final_score : ℚ) (issues : List String),
      critical_issues.any (fun issue => issues.contains issue) = false →
      (should_continue final_score 1 issues).1 = true) ∧
    (∀ (final_score : ℚ) (max_iterations : ℕ), 1 < max_iterations →
      (should_continue_optimization final_score 1 max_iterations).1 = true) ∧
    (should_continue 9.8 1 []).1 = true ∧
    should_continue 9.8 2 [] = (false, "Target score (9.5) achieved") := by
  refine ⟨?_, ?_, ?_, ?_, ?_⟩
  · intro s issues h
    unfold should_continue at h
    norm_num [scorer_max_iterations] at h
    split_ifs at h <;> simp_all
  · intro s issues hcrit
    unfold should_continue
    rw [if_neg (by simp only [scorer_max_iterations]; omega)]
    rw [if_neg (by norm_num)]
    rw [if_neg (by simpa using hcrit)]
  · intro s m hm
    unfold should_continue_optimization
    rw [if_neg (by omega)]
    norm_num
  · norm_num [should_continue, scorer_max_iterations, continue_threshold, critical_issues]
  · norm_num [should_continue, scorer_max_iterations, continue_threshold, critical_issues]

/-- C3 witness: a concrete first-iteration state continues under both
policies, via `C3_first_iteration_gate`. -/
theorem C3_first_iteration_gate_witness :
    (should_continue 7 1 ["missing_title"]).1 = true ∧
    (should_continue_optimization 7 1 5).1 = true :=
  ⟨C3_first_iteration_gate.2.1 7 ["missing_title"] (by decide),
    C3_first_iteration_gate.2.2.1 7 5 (by norm_num)⟩

/-- C1 counterexample: at combined score 8.5, iteration 2, no issues (and
`max_iterations = 5`), the loop-driving policy `should_continue` returns
CONTINUE, and the orchestrator loop runs through all five iterations
instead of stopping at iteration 2 as the claim demands. -/
theorem C1_counterexample :
    (should_continue 8.5 2 []).1 = true ∧
    loop_exit_iteration (fun _ => ⟨true, false, [], 8.5⟩) 5 = 5 := by
  constructor
  · norm_num [should_continue, scorer_max_iterations, continue_threshold, critical_issues]
  · norm_num [loop_exit_iteration, loop_exit_iteration.go, loop_exits_early, should_continue,
      scorer_max_iterations, continue_threshold, critical_issues]

/-- C1 amended: for `combined_score ≥ 8.0` and `2 ≤ iteration <
max_iterations`, the rewriter's `should_continue_optimization` does stop,
but the scorer's `should_continue` — the function whose verdict the
orchestrator loop actually checks — continues whenever the score is below
9.5 (given `iteration < 5` and no critical issue); the loop stops under
rule-4 conditions only when the score also reaches 9.5. -/
theorem C1_amended_good_score_rule :
    ∀ (final_score : ℚ) (iteration max_iterations : ℕ) (issues : List String),
      (8.0 : ℚ) ≤ final_score → 2 ≤ iteration → iteration < max_iterations →
      (should_continue_optimization final_score iteration max_iterations).1 = false ∧
      (final_score < 9.5 → iteration < 5 →
        critical_issues.any (fun issue => issues.contains issue) = false →
        (should_continue final_score iteration issues).1 = true) := by
  intro s it m issues h8 h2 hlt
  constructor
  · unfold should_continue_optimization
    rw [if_neg (by omega)]
    split_ifs with h1 h2' <;> simp_all
  · intro h95 h5c hcrit
    unfold should_continue
    rw [if_neg (by simp only [scorer_max_iterations]; omega)]
    rw [if_neg (by
      rintro ⟨hc, -⟩
      simp only [continue_threshold] at hc
      linarith)]
    rw [if_neg (by simpa using hcrit)]

/-- C1 amended witness: the two policies disagree at (8.5, iteration 2,
max 5), via `C1_amended_good_score_rule`. -/
theorem C1_amended_good_score_rule_witness :
    (should_continue_optimization 8.5 2 5).1 = false ∧
    (should_continue 8.5 2 []).1 = true := by
  have h := C1_amended_good_score_rule 8.5 2 5 [] (by norm_num) (by norm_num) (by norm_num)
  exact ⟨h.1, h.2 (by norm_num) (by norm_num) (by decide)⟩

/-- C2 counterexample: with the structural-invalid issue flagged, the policy
answers with the max-iterations outcome at iteration 5 and with the
target-score (STOP_SUCCESS) outcome at (9.6, iteration 2) — the critical-
issue rule does not win over either, so it is not evaluated first. -/
theorem C2_counterexample :
    should_continue 0 5 ["invalid_chart_spec"] =
      (false, "Maximum iterations (5) reached") ∧
    should_continue 9.6 2 ["invalid_chart_spec"] =
      (false, "Target score (9.5) achieved") := by
  constructor <;>
    norm_num [should_continue, scorer_max_iterations, continue_threshold, critical_issues]

/-- C2 amended: the critical-issue check of `should_continue` fires only
after the max-iterations and target-score rules have both declined: when a
structural-invalid issue is flagged, the clarification outcome is returned
iff `iteration < 5` and not (`score ≥ 9.5` and `iteration > 1`). -/
theorem C2_amended_critical_after_other_rules :
    ∀ (final_score : ℚ) (iteration : ℕ) (issues : List String),
      issues.contains "invalid_chart_spec" = true →
      iteration < 5 → ¬((9.5 : ℚ) ≤ final_score ∧ 1 < iteration) →
      should_continue final_score iteration issues =
        (false, "Critical issues detected requiring clarification") := by
  intro s it issues hin hlt hns
  unfold should_continue
  rw [if_neg (by simp only [scorer_max_iterations]; omega)]
  rw [if_neg (by
    rintro ⟨hc, hi⟩
    exact hns ⟨by simpa [continue_threshold] using hc, hi⟩)]
  rw [if_pos (by
    simp only [critical_issues]
    have : "invalid_chart_spec" ∈ issues := by simpa using hin
    simp [this])]

/-- C2 amended witness: a structural-invalid issue at iteration 2 with a low
score does reach the clarification outcome, via
`C2_amended_critical_after_other_rules`. -/
theorem C2_amended_critical_after_other_rules_witness :
    should_continue 0 2 ["invalid_chart_spec"] =
      (false, "Critical issues detected requiring clarification") :=
  C2_amended_critical_after_other_rules 0 2 ["invalid_chart_spec"] (by decide)
    (by norm_num) (by rintro ⟨h, -⟩; norm_num at h)

/-- C4 counterexample: at combined score 2.0, iteration 2, no issues (and
`max_iterations = 5`), the loop-driving policy returns CONTINUE and the
orchestrator loop runs through all five iterations — there is no quality
floor in the scorer's policy. -/
theorem C4_counterexample :
    (should_continue 2 2 []).1 = true ∧
    loop_exit_iteration (fun _ => ⟨true, false, [], 2⟩) 5 = 5 := by
  constructor
  · norm_num [should_continue, scorer_max_iterations, continue_threshold, critical_issues]
  · norm_num [loop_exit_iteration, loop_exit_iteration.go, loop_exits_early, should_continue,
      scorer_max_iterations, continue_threshold, critical_issues]

/-- C4 amended: for `combined_score < 3.0` and `2 ≤ iteration <
max_iterations` the rewriter's `should_continue_optimization` does stop
with the low-score reason, but the scorer's `should_continue` — the
function the orchestrator loop actually checks — continues (given
`iteration < 5` and no critical issue). -/
theorem C4_amended_quality_floor :
    ∀ (final_score : ℚ) (iteration max_iterations : ℕ) (issues : List String),
      final_score < 3.0 → 2 ≤ iteration → iteration < max_iterations →
      should_continue_optimization final_score iteration max_iterations =
        (false, "Score too low after multiple iterations") ∧
      (iteration < 5 →
        critical_issues.any (fun issue => issues.contains issue) = false →
        (should_continue final_score iteration issues).1 = true) := by
  intro s it m issues h3 h2 hm
  constructor
  · unfold should_continue_optimization
    rw [if_neg (by omega)]
    rw [if_neg (by rintro ⟨hc, -⟩; norm_num at hc h3; linarith)]
    rw [if_neg (by rintro ⟨hc, -⟩; norm_num at hc h3; linarith)]
    rw [if_pos ⟨h3, by omega⟩]
  · intro h5 hcrit
    unfold should_continue
    rw [if_neg (by simp only [scorer_max_iterations]; omega)]
    rw [if_neg (by
      rintro ⟨hc, -⟩
      simp only [continue_threshold] at hc
      norm_num at hc h3
      linarith)]
    rw [if_neg (by simpa using hcrit)]

/-- C4 amended witness: the two policies disagree at (2.0, iteration 2,
max 5), via `C4_amended_quality_floor`. -/
theorem C4_amended_quality_floor_witness :
    should_continue_optimization 2 2 5 =
      (false, "Score too low after multiple iterations") ∧
    (should_continue 2 2 []).1 = true := by
  have h := C4_amended_quality_floor 2 2 5 [] (by norm_num) (by norm_num) (by norm_num)
  exact ⟨h.1, h.2 (by norm_num) (by decide)⟩

/-- C5 counterexample: recording a 9.0 run and then an 8.5 run for the same
query replaces the stored 9.0 entry by the 8.5 entry — the stored score
decreases, so a lower-scoring run can evict a higher-scoring stored entry. -/
theorem C5_counterexample :
    getKey (add_run id emptyCache runA).patterns.query_patterns
        (hash_query id "q") = some ⟨"q", Json.str "bar", "p1", 9⟩ ∧
    getKey (add_run id (add_run id emptyCache runA) runB).patterns.query_patterns
        (hash_query id "q") = some ⟨"q", Json.str "bar", "p2", 8.5⟩ ∧
    (8.5 : ℚ) < 9 := by
  refine ⟨?_, ?_, by norm_num⟩ <;>
    norm_num [add_run, learn_from_run, emptyCache, emptyPatterns, runA, runB,
      hash_query, setKey, getKey, Json.get]

/-- C5 amended: the cache's write policy compares against the fixed
threshold 8.0, not against the stored score: a run below 8.0 writes no
query/prompt/chart pattern (so 9.0 then 6.0 leaves the 9.0 entry), and a
run at or above 8.0 unconditionally overwrites the entry for its
fingerprint (so the stored score can decrease while staying ≥ 8.0). -/
theorem C5_amended_fixed_threshold_write :
    ∀ (md5hex : String → String) (p : Patterns) (run : RunData),
      (run.final_score < 8.0 →
        (learn_from_run md5hex p run).query_patterns = p.query_patterns ∧
        (learn_from_run md5hex p run).prompt_patterns = p.prompt_patterns ∧
        (learn_from_run md5hex p run).chart_patterns = p.chart_patterns) ∧
      ((8.0 : ℚ) ≤ run.final_score →
        getKey (learn_from_run md5hex p run).query_patterns
            (hash_query md5hex run.user_query) =
          some ⟨run.user_query, (run.chart_spec.get "mark").getD (Json.str ""),
            run.prompt, run.final_score⟩) := by
  intro md5 p run
  constructor
  · intro hlt
    unfold learn_from_run
    simp only [if_neg (not_le.mpr hlt)]
    exact ⟨trivial, trivial, trivial⟩
  · intro hge
    unfold learn_from_run
    simp only [if_pos (show run.final_score ≥ 8.0 from hge)]
    exact getKey_setKey _ _ _

/-- C5 amended witness: a 6.0 run writes nothing and a 9.0 run writes its
entry, via `C5_amended_fixed_threshold_write`. -/
theorem C5_amended_fixed_threshold_write_witness :
    (learn_from_run id emptyPatterns ⟨"q", "p", Json.null, 1, 1, [], "", 6⟩).query_patterns
      = emptyPatterns.query_patterns ∧
    getKey (learn_from_run id emptyPatterns runA).query_patterns (hash_query id "q")
      = some ⟨"q", Json.str "bar", "p1", 9⟩ := by
  refine ⟨((C5_amended_fixed_threshold_write id emptyPatterns _).1 (by norm_num)).1, ?_⟩
  have h := (C5_amended_fixed_threshold_write id emptyPatterns runA).2 (by norm_num [runA])
  simpa [runA, Json.get, getKey] using h

/-- C6 counterexample: under a digest with a collision, `suggest_prompt`
returns the prompt recorded for the query `"a"` when asked about the
different query `"b"` — a fingerprint hit is served with no re-verification
of the stored query text, so the lookup is not exact. -/
theorem C6_counterexample :
    suggest_prompt hconst (add_run hconst emptyCache runC6).patterns "b" = some "pA" ∧
    py_strip (py_lower "b") ≠ py_strip (py_lower "a") := by
  constructor
  · norm_num [suggest_prompt, add_run, learn_from_run, emptyCache, emptyPatterns, runC6,
      hash_query, hconst, setKey, getKey]
  · decide

/-- C6 amended: `suggest_prompt` (like `suggest_chart_spec`) answers from
the fingerprint alone — it is exactly an association lookup under the
hashed query, with no text verification (and `prompt_patterns` stores no
original text to verify against); only the chart builder's cache branch
re-verifies the stored original query text (lower/strip-normalized
equality) before serving a cached chart spec. -/
theorem C6_amended_fingerprint_only_vs_verified :
    (∀ (md5hex : String → String) (p : Patterns) (user_query : String),
      suggest_prompt md5hex p user_query
        = getKey p.prompt_patterns (hash_query md5hex user_query)) ∧
    (∀ (md5hex : String → String) (p : Patterns) (user_query : String),
      (build_chart_cache md5hex p user_query).isSome = true →
      ∃ entry, getKey p.query_patterns (hash_query md5hex user_query) = some entry ∧
        py_strip (py_lower user_query) = py_strip (py_lower entry.query)) := by
  constructor
  · intro _ _ _
    rfl
  · intro md5 p q h
    unfold build_chart_cache at h
    by_cases hq : q = ""
    · simp [hq] at h
    · rw [if_pos hq] at h
      cases hs : suggest_chart_spec md5 p q with
      | none => rw [hs] at h; simp at h
      | some spec =>
        rw [hs] at h
        cases he : getKey p.query_patterns (hash_query md5 q) with
        | none => rw [he] at h; simp at h
        | some entry =>
          rw [he] at h
          by_cases ht : py_strip (py_lower q) = py_strip (py_lower entry.query)
          · exact ⟨entry, rfl, ht⟩
          · simp [ht] at h

/-- C6 amended witness: a chart-builder cache hit for `"hello"` against the
stored text `"Hello "` implies the normalized texts agree, via
`C6_amended_fingerprint_only_vs_verified`. -/
theorem C6_amended_fingerprint_only_vs_verified_witness :
    ∃ entry, getKey patsC6.query_patterns (hash_query hconst "hello") = some entry ∧
      py_strip (py_lower "hello") = py_strip (py_lower entry.query) :=
  C6_amended_fingerprint_only_vs_verified.2 hconst patsC6 "hello" (by decide)

/-- C7 counterexample: `"a b"` and `"a  b"` coincide after case and
whitespace folding, yet `_hash_query` (which only lower-cases) feeds the
digest two different strings, so the fingerprints differ — here witnessed
under the identity digest. -/
theorem C7_counterexample :
    spec_normalize "a b" = spec_normalize "a  b" ∧
    hash_query id "a b" ≠ hash_query id "a  b" := by
  constructor <;> decide

/-- C7 amended: the fingerprint is stable under case folding only — two
queries equal after `lower()` get the same fingerprint, whatever the
digest; whitespace is not folded by `_hash_query`. -/
theorem C7_amended_case_fold_only :
    ∀ (md5hex : String → String) (q₁ q₂ : String),
      py_lower q₁ = py_lower q₂ →
      hash_query md5hex q₁ = hash_query md5hex q₂ := by
  intro md5 q₁ q₂ h
  unfold hash_query
  rw [h]

/-- C7 amended witness: `"AbC"` and `"abc"` share a fingerprint, via
`C7_amended_case_fold_only`. -/
theorem C7_amended_case_fold_only_witness :
    hash_query id "AbC" = hash_query id "abc" :=
  C7_amended_case_fold_only id "AbC" "abc" (by decide)

/-- Applying a cached suggestion never shortens the prompt (each recognized
keyword appends a directive). -/
theorem length_apply_cached_suggestion (prompt s : String) :
    prompt.length ≤ (apply_cached_suggestion prompt s).length := by
  unfold apply_cached_suggestion
  split_ifs <;> simp [String.length_append] <;> omega

/-- The template rewrite strictly lengthens its input (both branches append
a non-empty suffix). -/
theorem length_template_rewrite (prompt : String) (issues : List String)
    (fb : String) (score : ℚ) :
    prompt.length < (template_rewrite prompt issues fb score).1.length := by
  unfold template_rewrite
  have h1 : 0 < ("\n\nAdditional requirements:\n" : String).length := by decide
  have h2 : 0 <
      ("\n\nPlease ensure the chart is clear, well-labeled, and effectively communicates the data insights." : String).length := by
    decide
  split_ifs <;> simp [String.length_append] <;> omega

/-- On the provider-failure branch, `rewrite_prompt` is the template rewrite
of the (possibly suggestion-extended) prompt. -/
theorem rewrite_prompt_fallback_eq (p : Patterns) (prompt : String)
    (issues : List String) (fb : String) (score : ℚ) (resp : String)
    (hcond : (py_startswith resp "[MOCK" || py_startswith resp "[LLM ERROR") = true) :
    rewrite_prompt p prompt issues fb score resp =
      template_rewrite
        (match (if score < 8.0 then suggest_improvements p issues 0.0 else []) with
          | cached_suggestion :: _ => apply_cached_suggestion prompt cached_suggestion
          | [] => prompt)
        issues fb score := by
  unfold rewrite_prompt
  rw [if_pos hcond]

/-- C9 counterexample: with the non-empty issue set `["missing_title"]`, a
provider reply equal to the input prompt makes `rewrite_prompt` return the
input unchanged — the non-no-op guarantee does not hold on the LLM path. -/
theorem C9_counterexample :
    (["missing_title"] : List String) ≠ [] ∧
    (rewrite_prompt emptyPatterns "x" ["missing_title"] "" 5 "x").1 = "x" := by
  refine ⟨by decide, ?_⟩
  norm_num [rewrite_prompt, suggest_improvements, getKey]
  decide

/-- C9 amended: on the deterministic fallback path (provider reply starting
with `[MOCK` or `[LLM ERROR`), the rewritten prompt strictly extends the
input, so it is non-empty and differs from the input — for every issue set;
on the LLM path the reply is returned trimmed without any comparison
against the input. -/
theorem C9_amended_fallback_strictly_extends :
    ∀ (p : Patterns) (prompt : String) (issues : List String)
      (feedback : String) (score : ℚ) (resp : String),
      (py_startswith resp "[MOCK" = true ∨ py_startswith resp "[LLM ERROR" = true) →
      (rewrite_prompt p prompt issues feedback score resp).1 ≠ prompt ∧
      (rewrite_prompt p prompt issues feedback score resp).1 ≠ "" := by
  intro p prompt issues fb score resp hresp
  have hcond : (py_startswith resp "[MOCK" || py_startswith resp "[LLM ERROR") = true := by
    rcases hresp with h | h <;> simp [h]
  have heq := rewrite_prompt_fallback_eq p prompt issues fb score resp hcond
  have hlen : prompt.length < (rewrite_prompt p prompt issues fb score resp).1.length := by
    rw [heq]
    have hp : prompt.length ≤
        (match (if score < 8.0 then suggest_improvements p issues 0.0 else []) with
          | cached_suggestion :: _ => apply_cached_suggestion prompt cached_suggestion
          | [] => prompt).length := by
      cases (if score < 8.0 then suggest_improvements p issues 0.0 else []) with
      | nil => exact le_refl _
      | cons a l => exact length_apply_cached_suggestion prompt a
    exact lt_of_le_of_lt hp (length_template_rewrite _ issues fb score)
  constructor
  · intro he
    rw [he] at hlen
    omega
  · intro he
    rw [he] at hlen
    have hz : ("" : String).length = 0 := rfl
    omega

/-- C9 amended witness: a concrete provider failure yields a rewrite that is
neither empty nor the input, via `C9_amended_fallback_strictly_extends`. -/
theorem C9_amended_fallback_strictly_extends_witness :
    (rewrite_prompt emptyPatterns "x" ["missing_axis_labels"] "" 5 "[MOCK] m").1 ≠ "x" ∧
    (rewrite_prompt emptyPatterns "x" ["missing_axis_labels"] "" 5 "[MOCK] m").1 ≠ "" :=
  C9_amended_fallback_strictly_extends emptyPatterns "x" ["missing_axis_labels"] "" 5
    "[MOCK] m" (Or.inl (by decide))

/-- C10. Candidate generation never fails: the deterministic template
fallback always carries the four required top-level fields (`$schema`,
`data`, `mark`, `encoding`), so `validate_chart_spec` holds of it for every
prompt, query and random draw; and when the provider output is unparseable
(`llm_chart = none`) and the cache misses, `build_chart` — a total
function, so no exception reaches the caller — returns exactly that
fallback, marked `llm_fallback` with method `dynamic_template`. -/
theorem C10_fallback_always_valid :
    ∀ (md5hex : String → String) (p : Patterns) (rng : ℕ → ℚ)
      (prompt user_query : String),
      validate_chart_spec (generate_dynamic_chart_spec rng prompt user_query) = true ∧
      (build_chart_cache md5hex p user_query = none →
        (build_chart md5hex p none rng prompt user_query).chart_spec
          = generate_dynamic_chart_spec rng prompt user_query ∧
        (build_chart md5hex p none rng prompt user_query).llm_fallback = true ∧
        (build_chart md5hex p none rng prompt user_query).generation_method
          = "dynamic_template" ∧
        validate_chart_spec ((build_chart md5hex p none rng prompt user_query).chart_spec)
          = true) := by
  intro md5 p rng prompt uq
  have hval : validate_chart_spec (generate_dynamic_chart_spec rng prompt uq) = true := rfl
  refine ⟨hval, fun h => ?_⟩
  unfold build_chart
  rw [h]
  exact ⟨rfl, rfl, rfl, hval⟩

/-- C10 witness: with an empty cache, empty user query and failing provider,
the fallback spec is produced and validates, via
`C10_fallback_always_valid`. -/
theorem C10_fallback_always_valid_witness :
    validate_chart_spec (generate_dynamic_chart_spec (fun _ => 0) "show revenue" "") = true ∧
    (build_chart id emptyPatterns none (fun _ => 0) "show revenue" "").llm_fallback = true := by
  have h := C10_fallback_always_valid id emptyPatterns (fun _ => 0) "show revenue" ""
  exact ⟨h.1, (h.2 rfl).2.1⟩

end Promptsmith
